import Mathlib

/-!
Shallow embedding of the usage-statistics persistence subsystem of
notxx/CLIProxyAPI (internal/usage/file_plugin.go and the StartService glue
in cmd). Filesystem effects are modelled as a map from paths to file
contents; a file content is either a successfully-parsed envelope or raw
bytes that fail to parse as the envelope structure. Machine concurrency is
sequentialised: each Go method becomes a state transition, and the
goroutine/channel runtime state is carried explicitly.
-/

namespace Usage

/-- Modelled from the spec: the statistics snapshot produced by the external
store (logger_plugin.go is not part of the visible slice). Fields follow the
persisted-file format of spec section 6: total_requests, success_count,
failure_count, total_tokens, apis, requests_by_day. The subsystem treats it
as an opaque value type, so the exact field set does not affect any claim. -/
structure StatisticsSnapshot where
  totalRequests : Nat
  successCount : Nat
  failureCount : Nat
  totalTokens : Nat
  apis : List (String × Nat)
  requestsByDay : List (String × Nat)
deriving DecidableEq

/-- Modelled from the spec: MergeOutcome `\x7badded, skipped\x7d` returned by the
store's MergeSnapshot. The values are the store's internal concern; the
claims only observe whether a merge occurred. -/
structure MergeResult where
  added : Nat
  skipped : Nat
deriving DecidableEq

/-- Modelled from the spec: the external SnapshotStore (RequestStatistics in
the Go code, not part of the visible slice). `current` backs Snapshot();
`mergedHistory` records every snapshot passed to MergeSnapshot, so that
"the store is unchanged / no merge was invoked" is observable as equality
of the whole structure. -/
structure RequestStatistics where
  current : StatisticsSnapshot
  mergedHistory : List StatisticsSnapshot
deriving DecidableEq

/-- Modelled from the spec: Snapshot() returns a point-in-time copy of the
counters. -/
def RequestStatistics.Snapshot (st : RequestStatistics) : StatisticsSnapshot :=
  st.current

/-- Modelled from the spec: MergeSnapshot incorporates a restored snapshot
and returns a MergeOutcome. Its dedup policy is external; the model records
the merged snapshot so claims can observe that (and with what data) the
merge was invoked. -/
def RequestStatistics.MergeSnapshot (st : RequestStatistics) (s : StatisticsSnapshot) :
    RequestStatistics × MergeResult :=
  ({ st with mergedHistory := s :: st.mergedHistory }, { added := 0, skipped := 0 })

/-- A wall-clock instant, as far as the subsystem observes it (time.Now().UTC()
truncated to seconds, which is all the quarantine-name format uses). -/
structure GoTime where
  year : Nat
  month : Nat
  day : Nat
  hour : Nat
  minute : Nat
  second : Nat
deriving DecidableEq

/-- FileUsageData from file_plugin.go: the persisted envelope
`\x7bversion, saved_at, data\x7d`. -/
structure FileUsageData where
  version : Int
  savedAt : GoTime
  data : StatisticsSnapshot
deriving DecidableEq

/-- A file's contents, at the granularity the claims need: either bytes that
json.Unmarshal parses into a FileUsageData envelope, or raw bytes that fail
to parse as that structure. -/
inductive FileContent where
  | json (d : FileUsageData)
  | raw (s : String)
deriving DecidableEq

/-- The filesystem: a map from paths to file contents. -/
def FS : Type := String → Option FileContent

/-- os.WriteFile: create or overwrite the file at `p`. -/
def fsWrite (fs : FS) (p : String) (c : FileContent) : FS :=
  fun q => if q = p then some c else fs q

/-- os.Remove: delete the file at `p`. -/
def fsRemove (fs : FS) (p : String) : FS :=
  fun q => if q = p then none else fs q

/-- os.Rename: move the file at `src` to `dst`, overwriting `dst`. -/
def fsRename (fs : FS) (src dst : String) : FS :=
  fun q => if q = dst then fs src else if q = src then none else fs q

/-- strings.HasPrefix, on the character list so it kernel-evaluates. -/
def strHasPrefix (s pre : String) : Bool :=
  pre.data.isPrefixOf s.data

/-- strings.TrimPrefix(s, p) when p is known to be a prefix of length n:
drop the first n characters. -/
def strDrop (s : String) (n : Nat) : String :=
  ⟨s.data.drop n⟩

/-- strings.TrimLeft(s, "/\\"): drop leading slash or backslash characters. -/
def strTrimLeftSeps (s : String) : String :=
  ⟨s.data.dropWhile (fun c => c == '/' || c == '\\')⟩

/-- filepath.Join for the two-element call used here. Go additionally runs
Clean on the result; no claim exercises dot-segment normalisation, so the
model only inserts the separator (and, like Go, drops empty elements). -/
def filepathJoin (a b : String) : String :=
  if a = "" then b
  else if b = "" then a
  else a ++ "/" ++ b

/-- resolvePath from file_plugin.go. `home` models the result of
os.UserHomeDir(): `none` when the home directory cannot be determined.
Inside the branch the "~" prefix is present, so strings.TrimPrefix drops
exactly one character. -/
def resolvePath (home : Option String) (path : String) : String :=
  if strHasPrefix path "~" then
    match home with
    | none => path
    | some h =>
      let remainder := strTrimLeftSeps (strDrop path 1)
      if remainder = "" then h
      else filepathJoin h remainder
  else path

/-- FileUsagePlugin from file_plugin.go. `stopChClosed` models whether
close(p.stopCh) has run (the channel is created open by the constructor);
`running` models whether the periodic-save goroutine has been launched.
The mutex is sequentialised away: every transition below is atomic. -/
structure FileUsagePlugin where
  filePath : String
  interval : Int
  stats : Option RequestStatistics
  stopChClosed : Bool
  stopped : Bool
  restoreOnStart : Bool
  running : Bool
deriving DecidableEq

/-- NewFileUsagePlugin from file_plugin.go. -/
def NewFileUsagePlugin (home : Option String) (filePath : String) (interval : Int)
    (restore : Bool) (stats : Option RequestStatistics) : FileUsagePlugin :=
  { filePath := resolvePath home filePath
    interval := interval
    stats := stats
    stopChClosed := false
    stopped := false
    restoreOnStart := restore
    running := false }

/-- The environment a Save call runs in: the current time and whether the two
fallible filesystem steps succeed. json.MarshalIndent cannot fail on this
struct, and MkdirAll failure is not exercised by any claim, so neither is
injectable. -/
structure SaveEnv where
  now : GoTime
  writeOk : Bool
  renameOk : Bool
deriving DecidableEq

/-- Save from file_plugin.go: nil-store guard, snapshot, envelope with
version 1 and the current UTC time, write to `path + ".tmp"`, atomic rename
onto `path`; on rename failure remove the temp file and return the wrapped
error. -/
def FileUsagePlugin.Save (p : FileUsagePlugin) (fs : FS) (env : SaveEnv) :
    FS × Except String Unit :=
  match p.stats with
  | none => (fs, Except.ok ())
  | some st =>
    let path := p.filePath
    let snapshot := st.Snapshot
    let d : FileUsageData := { version := 1, savedAt := env.now, data := snapshot }
    let tempFile := path ++ ".tmp"
    if env.writeOk then
      let fs1 := fsWrite fs tempFile (FileContent.json d)
      if env.renameOk then
        (fsRename fs1 tempFile path, Except.ok ())
      else
        (fsRemove fs1 tempFile, Except.error "rename temp file")
    else
      (fs, Except.error "write temp file")

/-- Left-pad a decimal rendering to two digits. -/
def pad2 (n : Nat) : String :=
  if n < 10 then "0" ++ toString n else toString n

/-- Left-pad a decimal rendering to four digits. -/
def pad4 (n : Nat) : String :=
  if n < 10 then "000" ++ toString n
  else if n < 100 then "00" ++ toString n
  else if n < 1000 then "0" ++ toString n
  else toString n

/-- time.Time.Format with the layout "20060102-150405": YYYYMMDD-HHMMSS. -/
def GoTime.formatCompact (t : GoTime) : String :=
  pad4 t.year ++ pad2 t.month ++ pad2 t.day ++ "-" ++
    pad2 t.hour ++ pad2 t.minute ++ pad2 t.second

/-- Outcome of Load: either a normal return carrying the new filesystem, the
(possibly merged) store and the returned error value, or a nil-pointer
dereference (Go runtime panic). -/
inductive LoadOutcome where
  | ok (fs : FS) (stats : Option RequestStatistics) (result : Except String Unit)
  | nilPanic (fs : FS)

/-- Load from file_plugin.go: missing file is a silent no-op success; bytes
that fail to unmarshal are renamed to `path + ".corrupt." + timestamp` and
an unmarshal error is returned; a parsed envelope with version other than 1
yields a version error with no filesystem or store change; otherwise
p.stats.MergeSnapshot is invoked unconditionally, so a nil store panics.
The quarantine rename is modelled as succeeding (both names are in the same
directory); read errors on an existing file are outside every claim's
hypothesis and are not modelled. -/
def FileUsagePlugin.Load (p : FileUsagePlugin) (fs : FS) (now : GoTime) : LoadOutcome :=
  let path := p.filePath
  match fs path with
  | none => LoadOutcome.ok fs p.stats (Except.ok ())
  | some (FileContent.raw _) =>
    let backupPath := path ++ ".corrupt." ++ now.formatCompact
    LoadOutcome.ok (fsRename fs path backupPath) p.stats (Except.error "unmarshal usage data")
  | some (FileContent.json d) =>
    if d.version ≠ 1 then
      LoadOutcome.ok fs p.stats (Except.error "unsupported version")
    else
      match p.stats with
      | none => LoadOutcome.nilPanic fs
      | some st => LoadOutcome.ok fs (some (st.MergeSnapshot d.data).1) (Except.ok ())

/-- Result of a transition that can hit a Go runtime panic. -/
inductive GoResult (α : Type) where
  | ok (a : α)
  | panicked

/-- Start from file_plugin.go: if restoreOnStart, run Load, turning an error
return into a logged warning (carried as the third component); then launch
the periodic goroutine only when interval > 0. A panic inside Load
propagates. -/
def FileUsagePlugin.Start (p : FileUsagePlugin) (fs : FS) (now : GoTime) :
    GoResult (FileUsagePlugin × FS × Option String) :=
  let step :=
    if p.restoreOnStart then
      match p.Load fs now with
      | LoadOutcome.ok fs1 stats1 (Except.ok _) =>
        GoResult.ok ({ p with stats := stats1 }, fs1, (none : Option String))
      | LoadOutcome.ok fs1 stats1 (Except.error e) =>
        GoResult.ok ({ p with stats := stats1 }, fs1, some e)
      | LoadOutcome.nilPanic _ => GoResult.panicked
    else GoResult.ok (p, fs, none)
  match step with
  | GoResult.panicked => GoResult.panicked
  | GoResult.ok (p1, fs1, warn) =>
    if p.interval ≤ 0 then GoResult.ok (p1, fs1, warn)
    else GoResult.ok ({ p1 with running := true }, fs1, warn)

/-- Stop from file_plugin.go: under the lock, return immediately if already
stopped, else flip the flag; then close(p.stopCh) (a panic if the channel
were already closed), which terminates the periodic goroutine, and perform
the terminal Save whose error is only logged. The Nat counts the terminal
saves performed by this call. -/
def FileUsagePlugin.Stop (p : FileUsagePlugin) (fs : FS) (env : SaveEnv) :
    GoResult (FileUsagePlugin × FS × Nat) :=
  if p.stopped then GoResult.ok (p, fs, 0)
  else
    let p1 := { p with stopped := true }
    if p1.stopChClosed then GoResult.panicked
    else
      let p2 := { p1 with stopChClosed := true, running := false }
      let sv := p2.Save fs env
      GoResult.ok (p2, sv.1, 1)

/-- From StartService in the cmd glue: the condition under which the
"Invalid save-interval" warning is logged. `parsed` models the result of
time.ParseDuration on the configured string (`none` is a parse error); Go
discards the error with `interval, _ :=`, leaving the zero duration, hence
`parsed.getD 0`. -/
def shouldWarnSaveInterval (parsed : Option Int) (s : String) : Bool :=
  decide (parsed.getD 0 ≤ 0) && !(s == "") && !(s == "0")

/-- The warning condition exactly as claim C5 words it: the string was
non-empty but unparsable or parsed to a non-positive duration. -/
def claimWarnSaveInterval (parsed : Option Int) (s : String) : Bool :=
  !(s == "") &&
    (match parsed with
     | none => true
     | some d => decide (d ≤ 0))

/-- The empty filesystem. -/
def emptyFS : FS := fun _ => none

/-- A concrete snapshot used by witnesses. -/
def sampleSnapshot : StatisticsSnapshot :=
  { totalRequests := 3
    successCount := 2
    failureCount := 1
    totalTokens := 42
    apis := [("gemini", 3)]
    requestsByDay := [("2026-02-02", 3)] }

/-- A concrete store used by witnesses. -/
def sampleStats : RequestStatistics :=
  { current := sampleSnapshot, mergedHistory := [] }

/-- A second concrete store state, as after a mutation. -/
def sampleStatsMutated : RequestStatistics :=
  { current := { sampleSnapshot with totalRequests := 5, totalTokens := 77 }
    mergedHistory := [] }

/-- A concrete instant used by witnesses. -/
def sampleTime : GoTime :=
  { year := 2026, month := 2, day := 2, hour := 12, minute := 30, second := 0 }

/-- A fully successful save environment. -/
def sampleEnv : SaveEnv :=
  { now := sampleTime, writeOk := true, renameOk := true }

/-- A save environment whose rename step fails. -/
def sampleEnvRenameFail : SaveEnv :=
  { now := sampleTime, writeOk := true, renameOk := false }

/-- A concrete plugin used by witnesses: absolute path, periodic saving
disabled, restore enabled. -/
def samplePlugin : FileUsagePlugin :=
  NewFileUsagePlugin none "/data/usage.json" 0 true (some sampleStats)

/-- A concrete plugin with no store reference. -/
def samplePluginNilStore : FileUsagePlugin :=
  NewFileUsagePlugin none "/data/usage.json" 0 true none

/-- A filesystem holding unparsable bytes at the sample plugin's path. -/
def corruptFS : FS :=
  fun q => if q = "/data/usage.json" then some (FileContent.raw "not json") else none

/-- A filesystem holding a version-2 envelope at the sample plugin's path. -/
def version2FS : FS :=
  fun q =>
    if q = "/data/usage.json" then
      some (FileContent.json { version := 2, savedAt := sampleTime, data := sampleSnapshot })
    else none

/-- A filesystem holding a valid version-1 envelope at the sample plugin's
path. -/
def version1FS : FS :=
  fun q =>
    if q = "/data/usage.json" then
      some (FileContent.json { version := 1, savedAt := sampleTime, data := sampleSnapshot })
    else none

end Usage

namespace Usage

/-- Helper: a string never equals itself extended by a nonempty suffix. -/
theorem self_ne_append (s t : String) (ht : 0 < t.length) : s ≠ s ++ t := by
  intro h
  have hd : s.data = s.data ++ t.data := congrArg String.data h
  have h1 := congrArg List.length hd
  rw [List.length_append] at h1
  have h3 : t.length = t.data.length := rfl
  omega

/-- Helper: appending on the right keeps a nonempty string nonempty. -/
theorem append_length_pos (s t : String) (hs : 0 < s.length) : 0 < (s ++ t).length := by
  have hd : (s ++ t).data = s.data ++ t.data := by cases s; cases t; rfl
  have h1 : (s ++ t).length = (s ++ t).data.length := rfl
  rw [hd, List.length_append] at h1
  have h2 : s.length = s.data.length := rfl
  omega

/-- C1: Stop is idempotent and performs exactly one terminal save. On a
plugin that is not yet stopped (stop channel still open), the first Stop
flips the stopped flag to true and performs exactly one terminal Save
without panicking; the second Stop on the resulting state returns
immediately with the state and filesystem unchanged and performs zero
saves, so two successive Stop calls perform one terminal save in total. -/
theorem stop_idempotent_one_terminal_save (p : FileUsagePlugin) (fs : FS) (env env' : SaveEnv)
    (h1 : p.stopped = false) (h2 : p.stopChClosed = false) :
    ∃ p' fs', p.Stop fs env = GoResult.ok (p', fs', 1)
      ∧ p'.stopped = true
      ∧ p'.Stop fs' env' = GoResult.ok (p', fs', 0) := by
  refine ⟨{ p with stopped := true, stopChClosed := true, running := false },
    (FileUsagePlugin.Save
      { p with stopped := true, stopChClosed := true, running := false } fs env).1,
    ?_, rfl, ?_⟩
  · simp [FileUsagePlugin.Stop, h1, h2]
  · simp [FileUsagePlugin.Stop]

/-- Witness for C1 at a concrete never-stopped plugin. -/
theorem stop_idempotent_one_terminal_save_witness :
    ∃ p' fs', samplePlugin.Stop emptyFS sampleEnv = GoResult.ok (p', fs', 1)
      ∧ p'.stopped = true
      ∧ p'.Stop fs' sampleEnv = GoResult.ok (p', fs', 0) :=
  stop_idempotent_one_terminal_save samplePlugin emptyFS sampleEnv sampleEnv rfl rfl

/-- C10: Stop is valid from the constructed, never-started state. The
constructor creates the stop channel open and the stopped flag false, so
the first Stop on a fresh plugin does not panic: it flips the stopped flag,
closes the channel, and performs exactly one terminal save. -/
theorem stop_from_constructed_state (home : Option String) (fp : String) (iv : Int)
    (restore : Bool) (st : Option RequestStatistics) (fs : FS) (env : SaveEnv) :
    ∃ p' fs',
      (NewFileUsagePlugin home fp iv restore st).Stop fs env = GoResult.ok (p', fs', 1)
      ∧ p'.stopped = true ∧ p'.stopChClosed = true := by
  refine ⟨_, _, rfl, rfl, rfl⟩

end Usage

namespace Usage

/-- C2: on a file at the configured path whose bytes fail to parse as the
envelope structure, Load renames the file to the quarantine name
`path ++ ".corrupt." ++ YYYYMMDD-HHMMSS`, returns a corruption error, and
leaves the store untouched (the returned store is exactly `p.stats`, so no
merge was invoked); afterwards the quarantine file holds the corrupt
contents and the live path no longer exists. -/
theorem load_quarantines_corrupt (p : FileUsagePlugin) (fs : FS) (now : GoTime) (s : String)
    (hraw : fs p.filePath = some (FileContent.raw s)) :
    ∃ fs' e, p.Load fs now = LoadOutcome.ok fs' p.stats (Except.error e)
      ∧ fs' (p.filePath ++ ".corrupt." ++ now.formatCompact) = some (FileContent.raw s)
      ∧ fs' p.filePath = none := by
  have hne : p.filePath ≠ p.filePath ++ ".corrupt." ++ now.formatCompact := by
    rw [String.append_assoc]
    exact self_ne_append _ _ (append_length_pos _ _ (by decide))
  refine ⟨fsRename fs p.filePath (p.filePath ++ ".corrupt." ++ now.formatCompact),
    "unmarshal usage data", ?_, ?_, ?_⟩
  · simp [FileUsagePlugin.Load, hraw]
  · simp [fsRename, hraw]
  · simp [fsRename, hne]

/-- Witness for C2: concrete corrupt bytes at the sample plugin's path are
quarantined with the sample timestamp. -/
theorem load_quarantines_corrupt_witness :
    ∃ fs' e, samplePlugin.Load corruptFS sampleTime =
        LoadOutcome.ok fs' samplePlugin.stats (Except.error e)
      ∧ fs' (samplePlugin.filePath ++ ".corrupt." ++ sampleTime.formatCompact) =
          some (FileContent.raw "not json")
      ∧ fs' samplePlugin.filePath = none :=
  load_quarantines_corrupt samplePlugin corruptFS sampleTime "not json" rfl

/-- C3: on a file that parses as an envelope whose version differs from 1,
Load returns a version error with the filesystem exactly unchanged (no
rename, delete or rewrite) and the store exactly unchanged (the returned
store is `p.stats`, so no merge was invoked). -/
theorem load_rejects_unsupported_version (p : FileUsagePlugin) (fs : FS) (now : GoTime)
    (d : FileUsageData) (hf : fs p.filePath = some (FileContent.json d))
    (hv : d.version ≠ 1) :
    ∃ e, p.Load fs now = LoadOutcome.ok fs p.stats (Except.error e) := by
  refine ⟨"unsupported version", ?_⟩
  simp [FileUsagePlugin.Load, hf, hv]

/-- Witness for C3: a version-2 envelope at the sample plugin's path is
rejected without touching the filesystem or the store. -/
theorem load_rejects_unsupported_version_witness :
    ∃ e, samplePlugin.Load version2FS sampleTime =
      LoadOutcome.ok version2FS samplePlugin.stats (Except.error e) :=
  load_rejects_unsupported_version samplePlugin version2FS sampleTime
    { version := 2, savedAt := sampleTime, data := sampleSnapshot } rfl (by decide)

end Usage

namespace Usage

/-- C4: round-trip. With a store present and the filesystem steps
succeeding, Save writes the envelope with version 1, the current UTC time
and the store's snapshot to the configured path and returns success; a
subsequent Load on the same path parses that envelope, accepts it because
Save stamped the supported version 1, and merges a data field structurally
equal to the original snapshot into the store. -/
theorem save_load_round_trip (p : FileUsagePlugin) (fs : FS) (env : SaveEnv) (now2 : GoTime)
    (st : RequestStatistics) (hst : p.stats = some st)
    (hw : env.writeOk = true) (hr : env.renameOk = true) :
    (p.Save fs env).2 = Except.ok ()
    ∧ (p.Save fs env).1 p.filePath =
        some (FileContent.json { version := 1, savedAt := env.now, data := st.Snapshot })
    ∧ p.Load (p.Save fs env).1 now2 =
        LoadOutcome.ok (p.Save fs env).1 (some (st.MergeSnapshot st.Snapshot).1)
          (Except.ok ()) := by
  have hs : p.Save fs env = (fsRename (fsWrite fs (p.filePath ++ ".tmp")
      (FileContent.json { version := 1, savedAt := env.now, data := st.Snapshot }))
      (p.filePath ++ ".tmp") p.filePath, Except.ok ()) := by
    simp [FileUsagePlugin.Save, hst, hw, hr]
  have hfs2 : (p.Save fs env).1 p.filePath =
      some (FileContent.json { version := 1, savedAt := env.now, data := st.Snapshot }) := by
    rw [hs]
    simp [fsRename, fsWrite]
  refine ⟨by rw [hs], hfs2, ?_⟩
  simp [FileUsagePlugin.Load, hfs2, hst]

/-- Witness for C4 at a concrete store, path and time. -/
theorem save_load_round_trip_witness :
    (samplePlugin.Save emptyFS sampleEnv).2 = Except.ok ()
    ∧ (samplePlugin.Save emptyFS sampleEnv).1 samplePlugin.filePath =
        some (FileContent.json
          { version := 1, savedAt := sampleEnv.now, data := sampleStats.Snapshot })
    ∧ samplePlugin.Load (samplePlugin.Save emptyFS sampleEnv).1 sampleTime =
        LoadOutcome.ok (samplePlugin.Save emptyFS sampleEnv).1
          (some (sampleStats.MergeSnapshot sampleStats.Snapshot).1) (Except.ok ()) :=
  save_load_round_trip samplePlugin emptyFS sampleEnv sampleTime sampleStats rfl rfl rfl

/-- C6: the temporary file never survives a Save with a store present and a
successful write: after Save returns, `path ++ ".tmp"` is absent whether
the rename succeeded or failed; and when the rename fails, Save returns
the wrapped rename error and the filesystem is unchanged everywhere except
the (now deleted) temporary file. -/
theorem save_temp_file_never_survives (p : FileUsagePlugin) (fs : FS) (env : SaveEnv)
    (st : RequestStatistics) (hst : p.stats = some st) (hw : env.writeOk = true) :
    (p.Save fs env).1 (p.filePath ++ ".tmp") = none
    ∧ (env.renameOk = false →
        (∃ e, (p.Save fs env).2 = Except.error e)
        ∧ ∀ q, q ≠ p.filePath ++ ".tmp" → (p.Save fs env).1 q = fs q) := by
  have hne : p.filePath ≠ p.filePath ++ ".tmp" := self_ne_append _ _ (by decide)
  cases hrr : env.renameOk
  case false =>
    refine ⟨?_, fun _ => ⟨⟨"rename temp file", ?_⟩, ?_⟩⟩
    · simp [FileUsagePlugin.Save, hst, hw, hrr, fsRemove]
    · simp [FileUsagePlugin.Save, hst, hw, hrr]
    · intro q hq
      simp [FileUsagePlugin.Save, hst, hw, hrr, fsRemove, fsWrite, hq]
  case true =>
    refine ⟨?_, ?_⟩
    · simp [FileUsagePlugin.Save, hst, hw, hrr, fsRename, hne, Ne.symm hne]
    · intro hcontra
      simp at hcontra

/-- Witness for C6 at a concrete plugin with a failing rename step. -/
theorem save_temp_file_never_survives_witness :
    (samplePlugin.Save emptyFS sampleEnvRenameFail).1 (samplePlugin.filePath ++ ".tmp") = none
    ∧ (sampleEnvRenameFail.renameOk = false →
        (∃ e, (samplePlugin.Save emptyFS sampleEnvRenameFail).2 = Except.error e)
        ∧ ∀ q, q ≠ samplePlugin.filePath ++ ".tmp" →
            (samplePlugin.Save emptyFS sampleEnvRenameFail).1 q = emptyFS q) :=
  save_temp_file_never_survives samplePlugin emptyFS sampleEnvRenameFail sampleStats rfl rfl

/-- C9: the nil-store guard exists only on the save path. With an absent
store reference, Save returns success with the filesystem untouched, but
Load on a readable version-1 envelope reaches the unconditional
MergeSnapshot call and dereferences the nil store. -/
theorem nil_store_save_guard_load_panic (p : FileUsagePlugin) (fs : FS) (env : SaveEnv)
    (now : GoTime) (d : FileUsageData) (hnil : p.stats = none) :
    p.Save fs env = (fs, Except.ok ())
    ∧ (fs p.filePath = some (FileContent.json d) → d.version = 1 →
        p.Load fs now = LoadOutcome.nilPanic fs) := by
  constructor
  · simp [FileUsagePlugin.Save, hnil]
  · intro hf hv
    simp [FileUsagePlugin.Load, hf, hv, hnil]

/-- Witness for C9: the concrete nil-store plugin saves as a no-op success
yet panics on loading a concrete valid version-1 file. -/
theorem nil_store_save_guard_load_panic_witness :
    samplePluginNilStore.Save version1FS sampleEnv = (version1FS, Except.ok ())
    ∧ samplePluginNilStore.Load version1FS sampleTime = LoadOutcome.nilPanic version1FS :=
  ⟨(nil_store_save_guard_load_panic samplePluginNilStore version1FS sampleEnv sampleTime
      { version := 1, savedAt := sampleTime, data := sampleSnapshot } rfl).1,
   (nil_store_save_guard_load_panic samplePluginNilStore version1FS sampleEnv sampleTime
      { version := 1, savedAt := sampleTime, data := sampleSnapshot } rfl).2 rfl rfl⟩

end Usage

namespace Usage

/-- C5 counterexample: the configured string "0" is non-empty and
time.ParseDuration("0") returns the duration 0, which is non-positive, so
the claim's condition says a warning is logged; but StartService explicitly
exempts the literal "0" from the warning, so no warning is logged. -/
theorem save_interval_warn_counterexample :
    claimWarnSaveInterval (some 0) "0" = true
    ∧ shouldWarnSaveInterval (some 0) "0" = false := by
  decide

/-- C5 amended: a warning is logged if and only if the supplied string was
non-empty, not the literal "0", and either unparsable or parsed to a
non-positive duration (Go discards the parse error, leaving the zero
duration); and a non-positive interval disables periodic saving: Start
never launches the periodic-save task, leaving the running flag exactly as
it was. -/
theorem save_interval_warn_amended (parsed : Option Int) (s : String) :
    (shouldWarnSaveInterval parsed s = true ↔
      (s ≠ "" ∧ s ≠ "0" ∧ parsed.getD 0 ≤ 0))
    ∧ ∀ (p : FileUsagePlugin) (fs : FS) (now : GoTime) (p1 : FileUsagePlugin) (fs1 : FS)
        (w : Option String), p.interval ≤ 0 →
          p.Start fs now = GoResult.ok (p1, fs1, w) → p1.running = p.running := by
  constructor
  · simp only [shouldWarnSaveInterval, Bool.and_eq_true, decide_eq_true_eq,
      Bool.not_eq_true', beq_eq_false_iff_ne]
    constructor
    · rintro ⟨⟨hd, h1⟩, h2⟩
      exact ⟨h1, h2, hd⟩
    · rintro ⟨h1, h2, hd⟩
      exact ⟨⟨hd, h1⟩, h2⟩
  · intro p fs now p1 fs1 w hiv hstart
    simp only [FileUsagePlugin.Start] at hstart
    cases hres : p.restoreOnStart with
    | false =>
      rw [hres] at hstart
      simp only [Bool.false_eq_true, if_false, if_pos hiv] at hstart
      cases hstart
      rfl
    | true =>
      rw [hres] at hstart
      simp only [if_true] at hstart
      cases hload : p.Load fs now with
      | ok fsL statsL result =>
        rw [hload] at hstart
        cases result with
        | ok u =>
          simp only [if_pos hiv] at hstart
          cases hstart
          rfl
        | error e =>
          simp only [if_pos hiv] at hstart
          cases hstart
          rfl
      | nilPanic fsL =>
        rw [hload] at hstart
        cases hstart

/-- Witness for C5's amended theorem at concrete inputs: the warning
condition instantiated at "5m" (which parses to 300000000000 ns), and the
zero-interval sample plugin's Start leaving the running flag untouched. -/
theorem save_interval_warn_amended_witness :
    (shouldWarnSaveInterval (some 300000000000) "5m" = true ↔
      ("5m" ≠ "" ∧ "5m" ≠ "0" ∧ (some (300000000000 : Int)).getD 0 ≤ 0))
    ∧ samplePlugin.running = samplePlugin.running :=
  ⟨(save_interval_warn_amended (some 300000000000) "5m").1,
   (save_interval_warn_amended (some 300000000000) "5m").2 samplePlugin emptyFS sampleTime
     samplePlugin emptyFS none (by decide) rfl⟩

end Usage

namespace Usage

/-- C7: path resolution. A string not starting with "~" passes through
unchanged; when the home directory cannot be determined the original
string is returned unchanged; the bare "~" resolves to the home directory
itself; and a "~"-prefixed string with a nonempty remainder after
stripping the shorthand and trimming leading separators resolves to that
remainder joined onto the home directory. -/
theorem resolvePath_correct (home : Option String) (path : String) :
    (strHasPrefix path "~" = false → resolvePath home path = path)
    ∧ (home = none → resolvePath home path = path)
    ∧ (∀ h, home = some h → path = "~" → resolvePath home path = h)
    ∧ (∀ h, home = some h → strHasPrefix path "~" = true →
        strTrimLeftSeps (strDrop path 1) ≠ "" →
          resolvePath home path = filepathJoin h (strTrimLeftSeps (strDrop path 1))) := by
  refine ⟨?_, ?_, ?_, ?_⟩
  · intro hs
    simp [resolvePath, hs]
  · intro hh
    subst hh
    by_cases hs : strHasPrefix path "~" <;> simp [resolvePath, hs]
  · intro h hh hp
    subst hh
    subst hp
    rfl
  · intro h hh hs hr
    subst hh
    simp [resolvePath, hs, hr]

/-- Witness for C7: all four behaviors at concrete inputs. -/
theorem resolvePath_correct_witness :
    resolvePath (some "/home/u") "/abs/path" = "/abs/path"
    ∧ resolvePath none "~/docs" = "~/docs"
    ∧ resolvePath (some "/home/u") "~" = "/home/u"
    ∧ resolvePath (some "/home/u") "~/docs" =
        filepathJoin "/home/u" (strTrimLeftSeps (strDrop "~/docs" 1)) :=
  ⟨(resolvePath_correct (some "/home/u") "/abs/path").1 (by decide),
   (resolvePath_correct none "~/docs").2.1 rfl,
   (resolvePath_correct (some "/home/u") "~").2.2.1 "/home/u" rfl rfl,
   (resolvePath_correct (some "/home/u") "~/docs").2.2.2 "/home/u" rfl (by decide) (by decide)⟩

/-- C8: restore-only, save-on-stop-only mode. On a not-yet-started plugin
with non-positive interval, restore-on-start set, a store present and no
file at the configured path, Start returns with no restore warning, no
panic and the state and filesystem unchanged (in particular no periodic
task: the running flag stays false); after mutating the store, Stop
performs exactly one terminal save, leaving the envelope of the mutated
snapshot at the configured path, no temporary file, and every other path
untouched. -/
theorem interval_nonpos_start_then_stop (p : FileUsagePlugin) (fs : FS) (now : GoTime)
    (stMut : RequestStatistics) (env : SaveEnv)
    (hiv : p.interval ≤ 0) (hres : p.restoreOnStart = true)
    (hnof : fs p.filePath = none) (hrun : p.running = false)
    (hstop : p.stopped = false) (hch : p.stopChClosed = false)
    (hw : env.writeOk = true) (hr : env.renameOk = true) :
    (p.Start fs now = GoResult.ok (p, fs, none) ∧ p.running = false)
    ∧ ∃ p2 fs2, ({ p with stats := some stMut }).Stop fs env = GoResult.ok (p2, fs2, 1)
        ∧ fs2 p.filePath =
            some (FileContent.json { version := 1, savedAt := env.now, data := stMut.Snapshot })
        ∧ fs2 (p.filePath ++ ".tmp") = none
        ∧ ∀ q, q ≠ p.filePath → q ≠ p.filePath ++ ".tmp" → fs2 q = fs q := by
  have hne : p.filePath ≠ p.filePath ++ ".tmp" := self_ne_append _ _ (by decide)
  constructor
  · refine ⟨?_, hrun⟩
    have h1 : p.Load fs now = LoadOutcome.ok fs p.stats (Except.ok ()) := by
      simp [FileUsagePlugin.Load, hnof]
    simp only [FileUsagePlugin.Start, hres, if_true, h1]
    rw [if_pos hiv, ← hres]
  · refine ⟨{ p with stats := some stMut, stopped := true, stopChClosed := true, running := false }, fsRename (fsWrite fs (p.filePath ++ ".tmp") (FileContent.json { version := 1, savedAt := env.now, data := stMut.Snapshot })) (p.filePath ++ ".tmp") p.filePath, ?_, ?_, ?_, ?_⟩
    · simp [FileUsagePlugin.Stop, FileUsagePlugin.Save, hstop, hch, hw, hr]
    · simp [fsRename, fsWrite]
    · simp [fsRename, fsWrite, hne, Ne.symm hne]
    · intro q hq1 hq2
      simp [fsRename, fsWrite, hq1, hq2]

/-- Witness for C8 at a concrete plugin with interval zero, an empty
filesystem and a concrete store mutation. -/
theorem interval_nonpos_start_then_stop_witness :
    (samplePlugin.Start emptyFS sampleTime = GoResult.ok (samplePlugin, emptyFS, none)
      ∧ samplePlugin.running = false)
    ∧ ∃ p2 fs2, ({ samplePlugin with stats := some sampleStatsMutated }).Stop emptyFS sampleEnv =
          GoResult.ok (p2, fs2, 1)
        ∧ fs2 samplePlugin.filePath =
            some (FileContent.json
              { version := 1, savedAt := sampleEnv.now, data := sampleStatsMutated.Snapshot })
        ∧ fs2 (samplePlugin.filePath ++ ".tmp") = none
        ∧ ∀ q, q ≠ samplePlugin.filePath → q ≠ samplePlugin.filePath ++ ".tmp" →
            fs2 q = emptyFS q :=
  interval_nonpos_start_then_stop samplePlugin emptyFS sampleTime sampleStatsMutated sampleEnv
    (by decide) rfl rfl rfl rfl rfl rfl rfl

end Usage
